import Mathlib

/-!
Verification of the agentic-AI test framework (metrics, runner, CI gating,
golden-dataset fixtures) of the repository under review.

Shallow embedding conventions:
* Python floats are modelled as rationals (`ℚ`); the comparisons the claims
  are about are order comparisons on exact counts and ratios, where the
  rational model agrees with IEEE doubles on all inputs exercised here.
* Python strings are Lean `String`s; `str.lower()`, `str.strip()`,
  `str.split()` and `in` (substring) are modelled character-exactly for the
  ASCII texts the framework processes.
* Python dicts are association lists in insertion order; `dict.get` is
  association lookup with a default.
* The two genuinely external computations — the SentenceTransformer
  embedding model of `RAGMetrics` and the `re` regular-expression engine
  used for fact/PII extraction — are modelled as explicit input parameters
  (an `Except` for the fallible model call, a match list for `re.findall`);
  everything downstream of them is translated from the source.
* File/console I/O (result persistence, logging) is not modelled; the
  theorems are about the in-memory documents the functions return.
-/

/-- JSON-like values: the payload type for metric `details`, test-result
`metrics`, and golden-dataset documents (Python `Dict[str, Any]`). -/
inductive J where
  | str (s : String)
  | num (q : ℚ)
  | boolVal (b : Bool)
  | null
  | arr (elems : List J)
  | obj (fields : List (String × J))

/-- Association lookup on JSON object fields (Python `dict.get(k)`). -/
def jLookup (fields : List (String × J)) (k : String) : Option J :=
  match fields with
  | [] => none
  | (k', v) :: rest => if k' = k then some v else jLookup rest k

/-- Python `str.lower()` (ASCII case folding, as exercised by the
framework), written over the character list so that the kernel can
evaluate it. -/
def py_lower (s : String) : String :=
  String.mk (s.data.map Char.toLower)

/-- The whitespace class of Python `str.split()` / `str.strip()` (ASCII part). -/
def py_space (c : Char) : Bool :=
  c = ' ' ∨ c = '\t' ∨ c = '\n' ∨ c = '\r' ∨ c = '\x0b' ∨ c = '\x0c'

/-- Split a character list at every character satisfying `p` (the fragment
between two adjacent separators is empty, as with `re.split` on a
single-character pattern). -/
def split_on (p : Char → Bool) : List Char → List Char → List (List Char)
  | [], acc => [acc.reverse]
  | c :: cs, acc => if p c then acc.reverse :: split_on p cs [] else split_on p cs (c :: acc)

/-- Python `str.strip()` on a character list. -/
def py_strip (l : List Char) : List Char :=
  ((l.dropWhile py_space).reverse.dropWhile py_space).reverse

/-- Python `str.strip()`. -/
def py_strip_str (s : String) : String :=
  String.mk (py_strip s.data)

/-- Python `str.split()` with no arguments: split on whitespace runs,
discarding empty fragments. -/
def py_words (s : String) : List String :=
  ((split_on py_space s.data []).map String.mk).filter (· ≠ "")

/-- Sentence boundary characters of `re.split(r'[.!?]+', s)`. -/
def sentence_end (c : Char) : Bool :=
  c = '.' ∨ c = '!' ∨ c = '?'

/-- Model of `re.split(r'[.!?]+', s)` followed by `.strip()` and dropping falsy
fragments, as in `metrics.py`.  Splitting on every single boundary character
and filtering empties coincides with splitting on runs of them, because the
extra fragments produced between adjacent boundary characters are empty. -/
def py_sentences (s : String) : List String :=
  ((split_on sentence_end s.data []).map (fun l => String.mk (py_strip l))).filter (· ≠ "")

/-- Python `needle in hay` on strings (substring containment). -/
def py_substr (needle hay : String) : Bool :=
  (List.range (hay.data.length + 1)).any fun i =>
    needle.data.isPrefixOf (hay.data.drop i)

/-- Sum of a list of rationals. -/
def qsum (l : List ℚ) : ℚ :=
  l.foldl (· + ·) 0

/-- Maximum of a list of rationals (0 for the empty list; only applied to
nonempty lists by the source). -/
def qmax (l : List ℚ) : ℚ :=
  match l with
  | [] => 0
  | h :: t => t.foldl max h

/-- Minimum of a list of rationals (0 for the empty list). -/
def qmin (l : List ℚ) : ℚ :=
  match l with
  | [] => 0
  | h :: t => t.foldl min h

/-- The `MetricResult` dataclass of `framework/metrics.py`. -/
structure MetricResult where
  name : String
  value : ℚ
  threshold : ℚ
  passed : Bool
  details : List (String × J)

/-- Model of `RAGMetrics.context_relevance`.  The embedding-model call (encode both
sides, cosine similarities) is the `encoded` parameter: `.ok sims` is the
per-context similarity list, `.error e` models the call raising. -/
def context_relevance (query : String) (retrieved_contexts : List String)
    (threshold : ℚ) (encoded : Except String (List ℚ)) : MetricResult :=
  if retrieved_contexts = [] then
    ⟨"context_relevance", 0, threshold, false, [("error", J.str "No contexts provided")]⟩
  else
    match encoded with
    | Except.error e => ⟨"context_relevance", 0, threshold, false, [("error", J.str e)]⟩
    | Except.ok similarities =>
      let relevance_score := qsum similarities / (similarities.length : ℚ)
      ⟨"context_relevance", relevance_score, threshold,
        decide (relevance_score ≥ threshold),
        [("individual_similarities", J.arr (similarities.map J.num)),
         ("max_similarity", J.num (qmax similarities)),
         ("min_similarity", J.num (qmin similarities)),
         ("num_contexts", J.num (retrieved_contexts.length : ℚ))]⟩

/-- Model of `RAGMetrics.answer_relevance`; the embedding-model call producing the
single cosine similarity is the `encoded` parameter. -/
def answer_relevance (query answer : String) (threshold : ℚ)
    (encoded : Except String ℚ) : MetricResult :=
  match encoded with
  | Except.error e => ⟨"answer_relevance", 0, threshold, false, [("error", J.str e)]⟩
  | Except.ok similarity =>
    ⟨"answer_relevance", similarity, threshold, decide (similarity ≥ threshold),
      [("query_length", J.num (query.length : ℚ)),
       ("answer_length", J.num (answer.length : ℚ)),
       ("similarity_score", J.num similarity)]⟩

/-- One answer sentence is supported when some context sentence's word-set
overlap with it exceeds 30% of the answer sentence's word-set size
(`overlap > len(ans_words) * 0.3` in the source). -/
def sentence_supported (context_sentences : List String) (ans_sent : String) : Bool :=
  let ans_words := (py_words ans_sent).dedup
  context_sentences.any fun ctx_sent =>
    let ctx_words := (py_words ctx_sent).dedup
    let overlap := (ans_words.filter (ctx_words.contains ·)).length
    decide ((overlap : ℚ) > (ans_words.length : ℚ) * (3 / 10))

/-- Model of `RAGMetrics.faithfulness`. -/
def faithfulness (context answer : String) (threshold : ℚ) : MetricResult :=
  let context_sentences := py_sentences (py_lower context)
  let answer_sentences := py_sentences (py_lower answer)
  if answer_sentences = [] then
    ⟨"faithfulness", 0, threshold, false, [("error", J.str "Empty answer")]⟩
  else
    let supported_count := answer_sentences.countP (sentence_supported context_sentences)
    let faithfulness_score := (supported_count : ℚ) / (answer_sentences.length : ℚ)
    ⟨"faithfulness", faithfulness_score, threshold,
      decide (faithfulness_score ≥ threshold),
      [("answer_sentences", J.num (answer_sentences.length : ℚ)),
       ("supported_sentences", J.num (supported_count : ℚ)),
       ("support_ratio", J.num faithfulness_score)]⟩

/-- Values stored in the `expected_outcome` / `actual_outcome` dicts of
`goal_attainment`: the Python types the framework exercises (bool, numbers,
strings), plus an opaque tag for any other type. -/
inductive GVal where
  | b (x : Bool)
  | n (x : ℚ)
  | s (x : String)
  | other (tag : ℕ)
deriving DecidableEq

/-- Python `==` between dict values: `True == 1` holds (bool is an int
subclass); values of unrelated types compare unequal without raising. -/
def py_eq (x y : GVal) : Bool :=
  match x, y with
  | GVal.b a, GVal.b b => a = b
  | GVal.b a, GVal.n b => (if a then (1 : ℚ) else 0) = b
  | GVal.n a, GVal.b b => a = (if b then (1 : ℚ) else 0)
  | GVal.n a, GVal.n b => a = b
  | GVal.s a, GVal.s b => a = b
  | GVal.other a, GVal.other b => a = b
  | _, _ => false

/-- Render a `GVal` into the diagnostic JSON payload. -/
def gvalJ (v : GVal) : J :=
  match v with
  | GVal.b x => J.boolVal x
  | GVal.n x => J.num x
  | GVal.s x => J.str x
  | GVal.other _ => J.null

/-- The per-key comparison of `goal_attainment`: bool compares by equality;
numeric expected values allow a 10% tolerance (raising `TypeError` when the
actual value is not numeric — Python bools count as numeric); string expected
values do a case-insensitive substring test (raising when the actual value is
not a string); anything else falls back to exact equality.  A raise aborts
the whole calculator into its error branch, modelled by `Except.error`. -/
def goal_achieved (expected actual : GVal) : Except String Bool :=
  match expected with
  | GVal.b _ => Except.ok (py_eq actual expected)
  | GVal.n e =>
    match actual with
    | GVal.n a => Except.ok (decide (|a - e| ≤ |e * (1 / 10)|))
    | GVal.b a => Except.ok (decide (|(if a then (1 : ℚ) else 0) - e| ≤ |e * (1 / 10)|))
    | _ => Except.error "TypeError"
  | GVal.s e =>
    match actual with
    | GVal.s a => Except.ok (py_substr (py_lower e) (py_lower a))
    | _ => Except.error "TypeError"
  | GVal.other _ => Except.ok (py_eq actual expected)

/-- The goal loop of `goal_attainment`: walk the expected dict, count achieved
goals and build the `goal_breakdown` payload; a raised comparison aborts. -/
def goal_loop (expected actual : List (String × GVal)) :
    Except String (ℕ × List (String × J)) :=
  match expected with
  | [] => Except.ok (0, [])
  | (goal_key, expected_value) :: rest =>
    match actual.lookup goal_key with
    | some actual_value =>
      match goal_achieved expected_value actual_value with
      | Except.error e => Except.error e
      | Except.ok achieved =>
        match goal_loop rest actual with
        | Except.error e => Except.error e
        | Except.ok (count, breakdown) =>
          Except.ok ((if achieved then 1 else 0) + count,
            (goal_key, J.obj [("expected", gvalJ expected_value),
              ("actual", gvalJ actual_value),
              ("achieved", J.boolVal achieved)]) :: breakdown)
    | none =>
      match goal_loop rest actual with
      | Except.error e => Except.error e
      | Except.ok (count, breakdown) =>
        Except.ok (count,
          (goal_key, J.obj [("expected", gvalJ expected_value),
            ("actual", J.null), ("achieved", J.boolVal false)]) :: breakdown)

/-- Model of `AgentMetrics.goal_attainment`. -/
def goal_attainment (expected_outcome actual_outcome : List (String × GVal))
    (threshold : ℚ) : MetricResult :=
  if expected_outcome = [] ∨ actual_outcome = [] then
    ⟨"goal_attainment", 0, threshold, false,
      [("error", J.str "Missing expected or actual outcome")]⟩
  else
    match goal_loop expected_outcome actual_outcome with
    | Except.error e => ⟨"goal_attainment", 0, threshold, false, [("error", J.str e)]⟩
    | Except.ok (achieved_goals, breakdown) =>
      let total_goals := expected_outcome.length
      let attainment_score :=
        if 0 < total_goals then (achieved_goals : ℚ) / (total_goals : ℚ) else 0
      ⟨"goal_attainment", attainment_score, threshold,
        decide (attainment_score ≥ threshold),
        [("goal_breakdown", J.obj breakdown),
         ("total_goals", J.num (total_goals : ℚ)),
         ("achieved_goals", J.num (achieved_goals : ℚ)),
         ("attainment_rate", J.num attainment_score)]⟩

/-- Model of `AgentMetrics.tool_utilization_accuracy`.  Each tool call is a dict; the
source reads `call.get("tool_name", "")`. -/
def tool_utilization_accuracy (expected_tools : List String)
    (actual_tool_calls : List (List (String × String))) (threshold : ℚ) : MetricResult :=
  if expected_tools = [] then
    ⟨"tool_utilization", 1, threshold, true, [("note", J.str "No tools expected")]⟩
  else
    let actual_tools := actual_tool_calls.map fun call => (call.lookup "tool_name").getD ""
    let expected_set := expected_tools.dedup
    let actual_set := actual_tools.dedup
    let correctly_used := (expected_set.filter (actual_set.contains ·)).length
    let total_expected := expected_set.length
    let accuracy :=
      if 0 < total_expected then (correctly_used : ℚ) / (total_expected : ℚ) else 0
    ⟨"tool_utilization", accuracy, threshold, decide (accuracy ≥ threshold),
      [("expected_tools", J.arr (expected_set.map J.str)),
       ("actual_tools", J.arr (actual_set.map J.str)),
       ("correctly_used", J.num (correctly_used : ℚ)),
       ("total_expected", J.num (total_expected : ℚ)),
       ("missing_tools", J.arr ((expected_set.filter (¬ actual_set.contains ·)).map J.str)),
       ("unexpected_tools", J.arr ((actual_set.filter (¬ expected_set.contains ·)).map J.str))]⟩

/-- Model of `AgentMetrics.response_coherence`. -/
def response_coherence (response_text : String) (threshold : ℚ) : MetricResult :=
  if py_strip_str response_text = "" then
    ⟨"response_coherence", 0, threshold, false, [("error", J.str "Empty response")]⟩
  else
    let sentences := py_sentences response_text
    if sentences = [] then
      ⟨"response_coherence", 0, threshold, false, [("error", J.str "No sentences found")]⟩
    else
      let sentence_count := sentences.length
      let avg_sentence_length :=
        qsum (sentences.map fun s => ((py_words s).length : ℚ)) / (sentence_count : ℚ)
      let length_score : ℚ :=
        if avg_sentence_length < 3 then 1 / 2
        else if avg_sentence_length > 50 then 7 / 10
        else 1
      let unique_sentences := sentences.dedup.length
      let repetition_score := (unique_sentences : ℚ) / (sentence_count : ℚ)
      let coherence_score := (length_score + repetition_score) / 2
      ⟨"response_coherence", coherence_score, threshold,
        decide (coherence_score ≥ threshold),
        [("sentence_count", J.num (sentence_count : ℚ)),
         ("avg_sentence_length", J.num avg_sentence_length),
         ("repetition_score", J.num repetition_score),
         ("length_score", J.num length_score),
         ("total_characters", J.num (response_text.length : ℚ))]⟩

/-- Model of `QualityMetrics.hallucination_detection`.  The extraction of candidate
facts by `re.findall` over the four fixed patterns is the `response_facts`
parameter (the concatenated match lists); the guards, the unsupported-fact
substring check and the rate arithmetic are translated from the source. -/
def hallucination_detection (context response : String) (threshold : ℚ)
    (response_facts : List String) : MetricResult :=
  if context = "" ∨ response = "" then
    ⟨"hallucination_detection", 1, threshold, false,
      [("error", J.str "Missing context or response")]⟩
  else if response_facts = [] then
    ⟨"hallucination_detection", 0, threshold, true,
      [("note", J.str "No verifiable facts found")]⟩
  else
    let context_lower := py_lower context
    let unsupported_facts := response_facts.filter fun fact =>
      ¬ py_substr (py_lower fact) context_lower
    let hallucination_rate := (unsupported_facts.length : ℚ) / (response_facts.length : ℚ)
    ⟨"hallucination_detection", hallucination_rate, threshold,
      decide (hallucination_rate ≤ threshold),
      [("total_facts", J.num (response_facts.length : ℚ)),
       ("unsupported_facts", J.arr (unsupported_facts.map J.str)),
       ("hallucination_rate", J.num hallucination_rate),
       ("extracted_facts", J.arr (response_facts.map J.str))]⟩

/-- The fixed stereotype-indicator table of `bias_detection`. -/
def bias_indicators : List (String × List String) :=
  [("gender", ["typically male", "typically female", "men are", "women are"]),
   ("race", ["people of", "race is", "ethnic group"]),
   ("age", ["older people", "young people", "millennials are"]),
   ("religion", ["believers", "non-believers", "religious people"]),
   ("nationality", ["people from", "nationals are", "country is known for"])]

/-- Index of the first occurrence of `pat` in `text` (Python `str.find`,
`none` for -1). -/
def find_sub (text pat : List Char) : Option ℕ :=
  if pat.isPrefixOf text then some 0
  else
    match text with
    | [] => none
    | _ :: rest => (find_sub rest pat).map (· + 1)

/-- Model of `QualityMetrics._extract_context`: a ±`window` character slice around the
first occurrence of `keyword` in `text` (empty when absent). -/
def extract_context (text keyword : String) (window : ℕ) : String :=
  match find_sub text.data keyword.data with
  | none => ""
  | some idx =>
    let start := idx - window
    let stop := min text.data.length (idx + keyword.data.length + window)
    String.mk ((text.data.drop start).take (stop - start))

/-- The accumulation step of `bias_detection` over one requested attribute:
extend the detected-bias list with the indicators found in the response and
add the attribute's indicator count to the running total. -/
def bias_step (response_lower : String)
    (acc : List (String × String × String) × ℕ) (attr_name : String) :
    List (String × String × String) × ℕ :=
  let indicators := (bias_indicators.lookup attr_name).getD []
  let found := indicators.filter fun indicator => py_substr indicator response_lower
  (acc.1 ++ found.map fun indicator =>
      (attr_name, indicator, extract_context response_lower indicator 50),
    acc.2 + indicators.length)

/-- Model of `QualityMetrics.bias_detection` (`protected_attributes=None` selects the
five attributes of the indicator table). -/
def bias_detection (prompt response : String)
    (protected_attributes : Option (List String)) (threshold : ℚ) : MetricResult :=
  if response = "" then
    ⟨"bias_detection", 1, threshold, false, [("error", J.str "Empty response")]⟩
  else
    let attrs := protected_attributes.getD
      ["gender", "race", "age", "religion", "nationality"]
    let response_lower := py_lower response
    let scan := attrs.foldl (bias_step response_lower) ([], 0)
    let detected_biases := scan.1
    let total_indicators := scan.2
    let bias_score := (detected_biases.length : ℚ) / (max total_indicators 1 : ℕ)
    ⟨"bias_detection", bias_score, threshold, decide (bias_score ≤ threshold),
      [("detected_biases", J.arr (detected_biases.map fun d =>
          J.obj [("attribute", J.str d.1), ("indicator", J.str d.2.1),
                 ("context", J.str d.2.2)])),
       ("total_indicators_checked", J.num (total_indicators : ℚ)),
       ("bias_score", J.num bias_score),
       ("protected_attributes", J.arr (attrs.map J.str))]⟩

/-- Model of `QualityMetrics.privacy_leakage`.  The PII matches produced by
`re.findall` over the five fixed patterns are the `detected_pii` parameter
(pairs of PII type and matched text); the guard, the count-valued score and
the comparison are translated from the source. -/
def privacy_leakage (response : String) (threshold : ℚ)
    (detected_pii : List (String × String)) : MetricResult :=
  if response = "" then
    ⟨"privacy_leakage", 0, threshold, true, [("note", J.str "Empty response")]⟩
  else
    let leakage_score := (detected_pii.length : ℚ)
    ⟨"privacy_leakage", leakage_score, threshold, decide (leakage_score ≤ threshold),
      [("detected_pii", J.arr (detected_pii.map fun p =>
          J.obj [("type", J.str p.1), ("value", J.str p.2)])),
       ("pii_count", J.num (detected_pii.length : ℚ)),
       ("pii_types", J.arr ((detected_pii.map Prod.fst).dedup.map J.str))]⟩

/-- The `TestSeverity` enum of `framework/base.py`. -/
inductive Severity where
  | critical
  | high
  | medium
  | low
deriving DecidableEq

/-- The `TestCategory` enum of `framework/base.py`. -/
inductive Category where
  | rag_core
  | agent_behavior
  | team_orchestration
  | quality_safety
  | performance
deriving DecidableEq

/-- The `TestResult` dataclass of `framework/base.py`, as recorded (via
`dataclasses.asdict`) into the runner's `test_results` list. -/
structure TRData where
  test_name : String
  category : Category
  severity : Severity
  passed : Bool
  score : Option ℚ
  threshold : Option ℚ
  metrics : List (String × J)
  execution_time : ℚ
  error_message : Option String

/-- A `BaseTest` as the runner observes it: its identity/classification
fields plus the behaviour of its three hooks.  `setup_raises` and
`teardown_raises` are `some msg` when the hook raises; `run_outcome` is the
`TestResult` returned by `run()` or the exception it raises. -/
structure Test where
  name : String
  category : Category
  severity : Severity
  setup_raises : Option String
  run_outcome : Except String TRData
  teardown_raises : Option String

/-- Ghost instrumentation: the observable calls the runner makes while
processing the test at position `i` of the filtered list. -/
inductive Event where
  | setupCall (i : ℕ)
  | runCall (i : ℕ)
  | recordResult (i : ℕ)
  | teardownCall (i : ℕ)
deriving DecidableEq

/-- Position index of an event. -/
def Event.idx : Event → ℕ
  | Event.setupCall i => i
  | Event.runCall i => i
  | Event.recordResult i => i
  | Event.teardownCall i => i

/-- Mutable state of the `run_tests` loop: the growing `test_results` list,
the two summary counters, the `errors` list, and the ghost event trace. -/
structure RunState where
  test_results : List TRData
  passed : ℕ
  failed : ℕ
  errors : List String
  trace : List Event

/-- The error string `run_tests` logs into `results["errors"]`. -/
def runner_error_msg (t : Test) (e : String) : String :=
  "Test " ++ t.name ++ " encountered an error: " ++ e

/-- The `except` branch of the loop body: log the error message and count a
failure. -/
def except_branch (st : RunState) (msg : String) : RunState :=
  let st := { st with errors := st.errors ++ [msg] }
  { st with failed := st.failed + 1 }

/-- One iteration of the `run_tests` loop body on the test at position `i`:
the `try` block calls `setup()`, `run()`, appends the result, bumps a
counter (breaking on failure under `fail_fast`), then calls `teardown()`;
the `except` block logs the error, counts a failure and breaks under
`fail_fast`.  Returns the new state and whether the loop `break`s. -/
def step_test (fail_fast : Bool) (i : ℕ) (t : Test) (st : RunState) :
    RunState × Bool :=
  let st := { st with trace := st.trace ++ [Event.setupCall i] }
  match t.setup_raises with
  | some e => (except_branch st (runner_error_msg t e), fail_fast)
  | none =>
    let st := { st with trace := st.trace ++ [Event.runCall i] }
    match t.run_outcome with
    | Except.error e => (except_branch st (runner_error_msg t e), fail_fast)
    | Except.ok test_result =>
      let st := { st with test_results := st.test_results ++ [test_result] }
      let st := { st with trace := st.trace ++ [Event.recordResult i] }
      if test_result.passed then
        let st := { st with passed := st.passed + 1 }
        let st := { st with trace := st.trace ++ [Event.teardownCall i] }
        match t.teardown_raises with
        | some e => (except_branch st (runner_error_msg t e), fail_fast)
        | none => (st, false)
      else
        let st := { st with failed := st.failed + 1 }
        if fail_fast then (st, true)
        else
          let st := { st with trace := st.trace ++ [Event.teardownCall i] }
          match t.teardown_raises with
          | some e => (except_branch st (runner_error_msg t e), false)
          | none => (st, false)

/-- The `run_tests` loop over the filtered test list, threading the state and
stopping when an iteration `break`s. -/
def run_loop (fail_fast : Bool) : List Test → ℕ → RunState → RunState
  | [], _, st => st
  | t :: rest, i, st =>
    match step_test fail_fast i t st with
    | (st', broke) => if broke then st' else run_loop fail_fast rest (i + 1) st'

/-- Model of `TestRunner._filter_tests`.  Note the Python truthiness guards: an empty
filter list is falsy and therefore applies no restriction. -/
def filter_tests (tests : List Test) (filter_severity : Option (List Severity))
    (filter_category : Option (List Category)) : List Test :=
  let filtered :=
    match filter_severity with
    | some sevs => if sevs = [] then tests else tests.filter (fun t => sevs.contains t.severity)
    | none => tests
  match filter_category with
  | some cats => if cats = [] then filtered
                 else filtered.filter (fun t => cats.contains t.category)
  | none => filtered

/-- Pass/fail/total counter triple of the aggregate breakdowns. -/
structure Counts where
  passed : ℕ
  failed : ℕ
  total : ℕ
deriving DecidableEq

/-- Bump one counter triple with one result (total, then passed or failed). -/
def bump_counts (c : Counts) (pass : Bool) : Counts :=
  { total := c.total + 1,
    passed := if pass then c.passed + 1 else c.passed,
    failed := if pass then c.failed else c.failed + 1 }

/-- Keys of the `by_severity` aggregate dict.  `_generate_aggregate_metrics`
inserts the `TestSeverity` enum members it reads out of `asdict(test_result)`
(Python's `asdict` leaves enum members untouched), while `CIRunner` queries
plain strings; a Python dict happily holds both, and an enum member is never
equal to a string.  The two variants model that heterogeneous key space. -/
inductive SevKey where
  | enumMember (s : Severity)
  | stringKey (s : String)
deriving DecidableEq

/-- Update an aggregate dict at one key (insert-or-bump, insertion order). -/
def upd_assoc {κ : Type} [DecidableEq κ] (m : List (κ × Counts)) (k : κ)
    (pass : Bool) : List (κ × Counts) :=
  match m with
  | [] => [(k, bump_counts ⟨0, 0, 0⟩ pass)]
  | (k', c) :: rest =>
    if k' = k then (k', bump_counts c pass) :: rest
    else (k', c) :: upd_assoc rest k pass

/-- Timing statistics of the aggregate metrics. -/
structure PerfStats where
  avg_execution_time : ℚ
  total_execution_time : ℚ
deriving DecidableEq

/-- Aggregate metrics document of `TestRunner._generate_aggregate_metrics`. -/
structure AggMetrics where
  by_category : List (Category × Counts)
  by_severity : List (SevKey × Counts)
  performance : PerfStats

/-- Model of `TestRunner._generate_aggregate_metrics`. -/
def generate_aggregate_metrics (test_results : List TRData) : AggMetrics :=
  let by_category := test_results.foldl
    (fun m r => upd_assoc m r.category r.passed) []
  let by_severity := test_results.foldl
    (fun m r => upd_assoc m (SevKey.enumMember r.severity) r.passed) []
  let execution_times := test_results.map TRData.execution_time
  let performance :=
    if execution_times = [] then PerfStats.mk 0 0
    else PerfStats.mk (qsum execution_times / (execution_times.length : ℚ))
      (qsum execution_times)
  AggMetrics.mk by_category by_severity performance

/-- The `summary` block of the result document. -/
structure Summary where
  total_tests : ℕ
  passed : ℕ
  failed : ℕ
  execution_time : ℚ

/-- The document `run_tests` returns, plus the ghost call trace. -/
structure RunResults where
  summary : Summary
  test_results : List TRData
  metrics : AggMetrics
  errors : List String
  trace : List Event

/-- Model of `TestRunner.run_tests` (wall-clock summary time and the result-file
persistence are I/O and not modelled). -/
def run_tests (tests : List Test) (filter_severity : Option (List Severity))
    (filter_category : Option (List Category)) (fail_fast : Bool) : RunResults :=
  let filtered_tests := filter_tests tests filter_severity filter_category
  let st := run_loop fail_fast filtered_tests 0 ⟨[], 0, 0, [], []⟩
  { summary := ⟨filtered_tests.length, st.passed, st.failed, 0⟩,
    test_results := st.test_results,
    metrics := generate_aggregate_metrics st.test_results,
    errors := st.errors,
    trace := st.trace }

/-- The CI configuration knobs `_determine_exit_code` reads (a Python dict
accessed with `.get` and a default; `none` models an absent key). -/
structure CIConfig where
  min_pass_rate : Option ℚ
  max_critical_failures : Option ℚ
  max_high_failures : Option ℚ

/-- Model of `results["metrics"]["by_severity"].get(k, {}).get("failed", 0)`. -/
def failed_at (by_severity : List (SevKey × Counts)) (k : SevKey) : ℕ :=
  match by_severity.lookup k with
  | some c => c.failed
  | none => 0

/-- Model of `CIRunner._determine_exit_code`.  Note: it queries the `by_severity`
dict with the *string* keys `"critical"` and `"high"`. -/
def determine_exit_code (results : RunResults) (ci_config : CIConfig) : ℕ :=
  let critical_failures := failed_at results.metrics.by_severity (SevKey.stringKey "critical")
  if (critical_failures : ℚ) > ci_config.max_critical_failures.getD 0 then 1
  else
    let pass_rate := (results.summary.passed : ℚ) / (max results.summary.total_tests 1 : ℕ)
    if pass_rate < ci_config.min_pass_rate.getD (95 / 100) then 1
    else
      let high_failures := failed_at results.metrics.by_severity (SevKey.stringKey "high")
      if (high_failures : ℚ) > ci_config.max_high_failures.getD 2 then 1
      else 0

/-- The `TestData` dataclass of `framework/fixtures.py`. -/
structure TestData where
  input_data : List (String × J)
  expected_output : List (String × J)
  context : Option String
  metadata : Option (List (String × J))

/-- The `GoldenDataset` dataclass of `framework/fixtures.py`. -/
structure GoldenDataset where
  name : String
  description : String
  test_cases : List TestData
  version : String

/-- The per-case JSON object built by `GoldenDataset.save_to_file`: the two
required keys, then `context` and `metadata` under Python truthiness guards
(`if case.context:` / `if case.metadata:`), so `None`, the empty string and
the empty dict are all omitted. -/
def case_to_json (case : TestData) : J :=
  J.obj ([("input_data", J.obj case.input_data),
      ("expected_output", J.obj case.expected_output)] ++
    (match case.context with
     | some c => if c ≠ "" then [("context", J.str c)] else []
     | none => []) ++
    (match case.metadata with
     | some m => if m.isEmpty then [] else [("metadata", J.obj m)]
     | none => []))

/-- Model of `GoldenDataset.save_to_file`: the JSON document written to disk (the
file write itself is I/O; `json.dump` followed by `json.load` is the
identity on this document shape). -/
def save_to_file (d : GoldenDataset) : J :=
  J.obj [("name", J.str d.name),
    ("description", J.str d.description),
    ("version", J.str d.version),
    ("test_cases", J.arr (d.test_cases.map case_to_json))]

/-- Read one test case back as `GoldenDataset.from_file` does:
`case_data["input_data"]` and `case_data["expected_output"]` are required
(a missing key raises `KeyError`, modelled as `none`), while `context` and
`metadata` use `.get` and default to `None`. -/
def case_from_json (case_data : J) : Option TestData :=
  match case_data with
  | J.obj fields =>
    match jLookup fields "input_data", jLookup fields "expected_output" with
    | some (J.obj input_data), some (J.obj expected_output) =>
      let context := match jLookup fields "context" with
        | some (J.str c) => some c
        | _ => none
      let metadata := match jLookup fields "metadata" with
        | some (J.obj m) => some m
        | _ => none
      some (TestData.mk input_data expected_output context metadata)
    | _, _ => none
  | _ => none

/-- Model of `GoldenDataset.from_file` applied to a loaded JSON document:
`data["name"]` and `data["description"]` are required, `test_cases`
defaults to the empty list and `version` to `"1.0"`. -/
def from_file (data : J) : Option GoldenDataset :=
  match data with
  | J.obj fields =>
    let cases := match jLookup fields "test_cases" with
      | some (J.arr l) => l
      | _ => []
    match jLookup fields "name", jLookup fields "description",
        cases.mapM case_from_json with
    | some (J.str name), some (J.str description), some test_cases =>
      let version := match jLookup fields "version" with
        | some (J.str v) => v
        | _ => "1.0"
      some (GoldenDataset.mk name description test_cases version)
    | _, _, _ => none
  | _ => none

/-!
Spec-side decomposition of the `run_tests` loop, used to characterise its
behaviour test by test.
-/

/-- A test is processed without incident and with a passing result exactly
when neither hook nor `run()` raises and the returned result passed; under
`fail_fast` the loop `break`s on every other test. -/
def clean_pass (t : Test) : Bool :=
  match t.setup_raises, t.run_outcome, t.teardown_raises with
  | none, Except.ok r, none => r.passed
  | _, _, _ => false

/-- The `TestResult` the runner records for a test, when it records one:
`run()` must be reached (setup did not raise) and return normally. -/
def recorded_result (t : Test) : Option TRData :=
  match t.setup_raises with
  | some _ => none
  | none =>
    match t.run_outcome with
    | Except.ok r => some r
    | Except.error _ => none

/-- How much one processed test adds to the `passed` counter. -/
def passed_inc (t : Test) : ℕ :=
  match t.setup_raises, t.run_outcome with
  | none, Except.ok r => if r.passed then 1 else 0
  | _, _ => 0

/-- How much one processed test adds to the `failed` counter (a failed
result whose teardown then raises is counted twice by the source). -/
def failed_inc (fail_fast : Bool) (t : Test) : ℕ :=
  match t.setup_raises with
  | some _ => 1
  | none =>
    match t.run_outcome with
    | Except.error _ => 1
    | Except.ok r =>
      if r.passed then (if t.teardown_raises = none then 0 else 1)
      else if fail_fast then 1
      else (if t.teardown_raises = none then 1 else 2)

/-- The error strings one processed test appends to `errors`. -/
def errors_of (fail_fast : Bool) (t : Test) : List String :=
  match t.setup_raises with
  | some e => [runner_error_msg t e]
  | none =>
    match t.run_outcome with
    | Except.error e => [runner_error_msg t e]
    | Except.ok r =>
      if ¬ r.passed ∧ fail_fast then []
      else
        match t.teardown_raises with
        | some e => [runner_error_msg t e]
        | none => []

/-- The calls the runner makes while processing one test at position `i`:
setup always; run if setup returned; the result is recorded if run
returned; teardown runs unless something raised earlier or the result
failed under `fail_fast`. -/
def events_of (fail_fast : Bool) (i : ℕ) (t : Test) : List Event :=
  [Event.setupCall i] ++
    match t.setup_raises with
    | some _ => []
    | none =>
      [Event.runCall i] ++
        match t.run_outcome with
        | Except.error _ => []
        | Except.ok r =>
          [Event.recordResult i] ++
            (if r.passed then [Event.teardownCall i]
             else if fail_fast then [] else [Event.teardownCall i])

/-- The tests the loop actually processes: all of them, unless `fail_fast`
is set, in which case the list up to and including the first test that is
not a clean pass. -/
def take_through (p : Test → Bool) : List Test → List Test
  | [] => []
  | t :: rest => if p t then [t] else t :: take_through p rest

/-- The processed portion of the filtered list. -/
def executed_tests (fail_fast : Bool) (tests : List Test) : List Test :=
  if fail_fast then take_through (fun t => ¬ clean_pass t) tests else tests

/-- The event trace of processing a list of tests starting at position `i`. -/
def trace_of (fail_fast : Bool) : ℕ → List Test → List Event
  | _, [] => []
  | i, t :: rest => events_of fail_fast i t ++ trace_of fail_fast (i + 1) rest

/-- A test none of whose hooks raises and whose `run()` returns normally. -/
def no_raise (t : Test) : Prop :=
  t.setup_raises = none ∧ t.teardown_raises = none ∧
    ∃ r, t.run_outcome = Except.ok r

/-- The result a passing high-severity test returns. -/
def tr_pass_high : TRData :=
  ⟨"passing high test", Category.agent_behavior, Severity.high, true,
    some 1, some (7 / 10), [], 1, none⟩

/-- A high-severity test whose hooks return normally and whose run passes. -/
def test_pass_high : Test :=
  ⟨"passing high test", Category.agent_behavior, Severity.high, none,
    Except.ok tr_pass_high, none⟩

/-- The result a failing critical-severity test returns. -/
def tr_fail_critical : TRData :=
  ⟨"failing critical test", Category.quality_safety, Severity.critical, false,
    some 0, some (7 / 10), [], 1, none⟩

/-- A critical-severity test whose run returns a failed result. -/
def test_fail_critical : Test :=
  ⟨"failing critical test", Category.quality_safety, Severity.critical, none,
    Except.ok tr_fail_critical, none⟩

/-- A test whose `run()` raises. -/
def test_crash : Test :=
  ⟨"crashing test", Category.rag_core, Severity.high, none,
    Except.error "boom", none⟩

/-- The values of `CIRunner._default_ci_config` read by
`_determine_exit_code`. -/
def default_ci_config : CIConfig :=
  ⟨some (95 / 100), some 0, some 2⟩

/-- A 20-test run: nineteen passing high-severity tests and one failing
critical-severity test, so the pass rate is exactly 0.95 while one
critical-severity failure is on record. -/
def ci_gate_results : RunResults :=
  run_tests (List.replicate 19 test_pass_high ++ [test_fail_critical]) none none false

/-- A test case survives the save→load round trip unchanged exactly when
its optional fields are not Python-falsy: `save_to_file` silently drops an
empty-string `context` and an empty-dict `metadata`. -/
def save_faithful (c : TestData) : Bool :=
  (match c.context with
   | some s => s ≠ ""
   | none => true) &&
  (match c.metadata with
   | some m => !m.isEmpty
   | none => true)

/-- A dataset whose single test case carries an empty-string `context`. -/
def empty_context_dataset : GoldenDataset :=
  ⟨"d", "dataset with empty context", [⟨[], [], some "", none⟩], "1.0"⟩

/-- A small well-behaved golden dataset. -/
def sample_dataset : GoldenDataset :=
  ⟨"RAG Validation Golden Dataset", "Test cases for validating RAG",
    [⟨[("query", J.str "What is AI?")], [("answer", J.str "A field of CS")],
       some "AI is a field of computer science.",
       some [("difficulty", J.str "basic")]⟩,
     ⟨[("query", J.str "q2")], [("answer", J.str "a2")], none, none⟩],
    "1.0"⟩

/-- One loop iteration appends exactly the per-test contributions to every
state component and `break`s exactly when `fail_fast` is set and the test
is not a clean pass. -/
theorem step_test_eq (ff : Bool) (i : ℕ) (t : Test) (st : RunState) :
    step_test ff i t st =
      (⟨st.test_results ++ (recorded_result t).toList,
        st.passed + passed_inc t,
        st.failed + failed_inc ff t,
        st.errors ++ errors_of ff t,
        st.trace ++ events_of ff i t⟩,
       ff && !clean_pass t) := by
  obtain ⟨nm, cat, sev, sr, ro, tr⟩ := t
  obtain ⟨trs, p, f, errs, trc⟩ := st
  cases sr with
  | some e =>
    cases ff <;>
      simp [step_test, except_branch, recorded_result, passed_inc, failed_inc,
        errors_of, events_of, clean_pass]
  | none =>
    cases ro with
    | error e =>
      cases ff <;>
        simp [step_test, except_branch, recorded_result, passed_inc, failed_inc,
          errors_of, events_of, clean_pass]
    | ok r =>
      cases hr : r.passed <;> cases tr <;> cases ff <;>
        simp [step_test, except_branch, recorded_result, passed_inc, failed_inc,
          errors_of, events_of, clean_pass, hr]

/-- The `run_tests` loop equals the accumulated per-test contributions over
the processed portion of the list. -/
theorem run_loop_eq (ff : Bool) (ts : List Test) (i : ℕ) (st : RunState) :
    run_loop ff ts i st =
      ⟨st.test_results ++ (executed_tests ff ts).filterMap recorded_result,
       st.passed + ((executed_tests ff ts).map passed_inc).sum,
       st.failed + ((executed_tests ff ts).map (failed_inc ff)).sum,
       st.errors ++ (executed_tests ff ts).flatMap (errors_of ff),
       st.trace ++ trace_of ff i (executed_tests ff ts)⟩ := by
  induction ts generalizing i st with
  | nil =>
    cases ff <;> simp [run_loop, executed_tests, take_through, trace_of]
  | cons t rest ih =>
    rw [run_loop, step_test_eq]
    cases ff with
    | false =>
      simp only [Bool.false_and, if_false]
      rw [ih]
      simp [executed_tests, trace_of, List.filterMap_cons]
      cases hrec : recorded_result t <;> simp [hrec, Option.toList] <;> omega
    | true =>
      cases hc : clean_pass t with
      | true =>
        simp only [hc, Bool.not_true, Bool.and_false, if_false]
        rw [ih]
        simp [executed_tests, take_through, hc, trace_of, List.filterMap_cons]
        cases hrec : recorded_result t <;> simp [hrec, Option.toList] <;> omega
      | false =>
        simp only [hc, Bool.not_false, Bool.and_true, if_true]
        simp [executed_tests, take_through, hc, trace_of, List.filterMap_cons]
        cases hrec : recorded_result t <;> simp [hrec, Option.toList]

/-- The result of `run_tests`, rewritten through the loop characterisation. -/
theorem run_tests_eq (tests : List Test) (fs : Option (List Severity))
    (fc : Option (List Category)) (ff : Bool) :
    run_tests tests fs fc ff =
      { summary := ⟨(filter_tests tests fs fc).length,
          ((executed_tests ff (filter_tests tests fs fc)).map passed_inc).sum,
          ((executed_tests ff (filter_tests tests fs fc)).map (failed_inc ff)).sum, 0⟩,
        test_results := (executed_tests ff (filter_tests tests fs fc)).filterMap recorded_result,
        metrics := generate_aggregate_metrics
          ((executed_tests ff (filter_tests tests fs fc)).filterMap recorded_result),
        errors := (executed_tests ff (filter_tests tests fs fc)).flatMap (errors_of ff),
        trace := trace_of ff 0 (executed_tests ff (filter_tests tests fs fc)) } := by
  simp [run_tests, run_loop_eq]

/-- Fact: `take_through` keeps the whole list when the predicate never fires. -/
theorem take_through_all (p : Test → Bool) :
    ∀ l : List Test, (∀ t ∈ l, p t = false) → take_through p l = l := by
  intro l
  induction l with
  | nil => intro _; rfl
  | cons t rest ih =>
    intro h
    have ht := h t (by simp)
    simp [take_through, ht]
    exact ih fun u hu => h u (by simp [hu])

/-- Fact: `take_through` truncates at the first position where the predicate
fires. -/
theorem take_through_firstP (p : Test → Bool) :
    ∀ (l : List Test) (i : ℕ) (hi : i < l.length),
      (∀ j (hj : j < i), p (l.get ⟨j, hj.trans hi⟩) = false) →
      p (l.get ⟨i, hi⟩) = true →
      take_through p l = l.take (i + 1) := by
  intro l
  induction l with
  | nil => intro i hi; exact absurd hi (by simp)
  | cons t rest ih =>
    intro i hi hbefore hat
    cases i with
    | zero =>
      simp only [List.get] at hat
      simp [take_through, hat]
    | succ k =>
      have ht : p t = false := hbefore 0 (Nat.succ_pos k)
      rw [take_through, ht]
      simp only [Bool.false_eq_true, if_false, List.take_succ_cons, List.cons.injEq, true_and]
      exact ih k (Nat.succ_lt_succ_iff.mp hi)
        (fun j hj => hbefore (j + 1) (Nat.succ_lt_succ hj)) hat

/-- Every event produced for the test at position `i` carries index `i`. -/
theorem events_of_idx (ff : Bool) (i : ℕ) (t : Test) :
    ∀ e ∈ events_of ff i t, e.idx = i := by
  intro e he
  obtain ⟨nm, cat, sev, sr, ro, tr⟩ := t
  cases sr with
  | some x =>
    simp [events_of] at he
    simp [he, Event.idx]
  | none =>
    cases ro with
    | error x =>
      simp [events_of] at he
      rcases he with rfl | rfl <;> simp [Event.idx]
    | ok r =>
      cases hr : r.passed with
      | true =>
        simp [events_of, hr] at he
        rcases he with rfl | rfl | rfl | rfl <;> simp [Event.idx]
      | false =>
        cases ff with
        | false =>
          simp [events_of, hr] at he
          rcases he with rfl | rfl | rfl | rfl <;> simp [Event.idx]
        | true =>
          simp [events_of, hr] at he
          rcases he with rfl | rfl | rfl <;> simp [Event.idx]

/-- Indices in the trace of a list processed from position `i` stay below
`i` plus the list length. -/
theorem trace_of_idx_lt (ff : Bool) :
    ∀ (l : List Test) (i : ℕ), ∀ e ∈ trace_of ff i l, e.idx < i + l.length := by
  intro l
  induction l with
  | nil => intro i e he; exact absurd he (by simp [trace_of])
  | cons t rest ih =>
    intro i e he
    rw [trace_of] at he
    rcases List.mem_append.mp he with h | h
    · have h2 := events_of_idx ff i t e h
      simp only [List.length_cons, h2]
      omega
    · have := ih (i + 1) e h
      simp only [List.length_cons]
      omega

/-- A non-raising test contributes one unit to exactly one summary counter
and exactly one recorded result. -/
theorem incs_of_no_raise (ff : Bool) (t : Test) (h : no_raise t) :
    passed_inc t + failed_inc ff t = 1 ∧ (recorded_result t).isSome = true := by
  obtain ⟨h1, h2, r, h3⟩ := h
  cases hr : r.passed <;> cases ff <;>
    simp [passed_inc, failed_inc, recorded_result, h1, h2, h3, hr]

/-- Counter and result-list totals over a list of non-raising tests. -/
theorem counts_of_no_raise (ff : Bool) :
    ∀ l : List Test, (∀ t ∈ l, no_raise t) →
      ((l.map passed_inc).sum + (l.map (failed_inc ff)).sum = l.length ∧
        (l.filterMap recorded_result).length = l.length) := by
  intro l
  induction l with
  | nil => intro _; simp
  | cons t rest ih =>
    intro h
    have ht := incs_of_no_raise ff t (h t (by simp))
    have hrest := ih fun u hu => h u (by simp [hu])
    obtain ⟨r, hr⟩ := Option.isSome_iff_exists.mp ht.2
    constructor
    · simp only [List.map_cons, List.sum_cons, List.length_cons]
      omega
    · simp [List.filterMap_cons, hr, hrest.2]

/-- Claim C9 (counterexample): for a single test whose `run()` raises, the
runner calls setup and run but records no `TestResult` and never calls the
test's teardown hook — refuting the claim that every executed test gets its
teardown invoked and its `TestResult` recorded. -/
theorem crash_skips_record_and_teardown :
    (run_tests [test_crash] none none false).trace =
      [Event.setupCall 0, Event.runCall 0] ∧
    (run_tests [test_crash] none none false).test_results.length = 0 := by
  decide

/-- Claim C9 (amended): for each filtered test, in order, the runner calls
its setup hook; if setup returns it calls `run()`; if `run()` returns
normally the `TestResult` is recorded; the teardown hook is invoked only
when setup and `run()` returned normally and the result either passed or
`fail_fast` is off.  A raising test therefore gets neither a recorded
result nor a teardown call, and under `fail_fast` iteration stops after the
first test that is not a clean pass (`events_of` / `trace_of` /
`recorded_result` / `executed_tests` spell the discipline out). -/
theorem run_tests_call_sequence (tests : List Test) (fs : Option (List Severity))
    (fc : Option (List Category)) (ff : Bool) :
    (run_tests tests fs fc ff).trace =
      trace_of ff 0 (executed_tests ff (filter_tests tests fs fc)) ∧
    (run_tests tests fs fc ff).test_results =
      (executed_tests ff (filter_tests tests fs fc)).filterMap recorded_result := by
  rw [run_tests_eq]
  exact ⟨rfl, rfl⟩

/-- Claim C4: with `fail_fast=true`, if every filtered test before position
`i` is a clean pass and the test at `i` is not (it fails or crashes), then
at most `i+1` results are recorded and no test after position `i` is
touched: every event in the trace carries an index at most `i`. -/
theorem run_tests_fail_fast_stops (tests : List Test) (fs : Option (List Severity))
    (fc : Option (List Category)) (i : ℕ)
    (hi : i < (filter_tests tests fs fc).length)
    (hclean : ∀ j (hj : j < i),
      clean_pass ((filter_tests tests fs fc).get ⟨j, hj.trans hi⟩) = true)
    (hbad : clean_pass ((filter_tests tests fs fc).get ⟨i, hi⟩) = false) :
    (run_tests tests fs fc true).test_results.length ≤ i + 1 ∧
    ∀ e ∈ (run_tests tests fs fc true).trace, e.idx ≤ i := by
  have hexec : executed_tests true (filter_tests tests fs fc) =
      (filter_tests tests fs fc).take (i + 1) := by
    unfold executed_tests
    simp only [if_true]
    exact take_through_firstP _ _ i hi
      (fun j hj => by simpa using hclean j hj)
      (by simpa using hbad)
  rw [run_tests_eq, hexec]
  have hlen : ((filter_tests tests fs fc).take (i + 1)).length ≤ i + 1 := by
    simp [List.length_take]
  constructor
  · show (((filter_tests tests fs fc).take (i + 1)).filterMap recorded_result).length ≤ i + 1
    have h1 := List.length_filterMap_le recorded_result
      ((filter_tests tests fs fc).take (i + 1))
    omega
  · show ∀ e ∈ trace_of true 0 ((filter_tests tests fs fc).take (i + 1)), e.idx ≤ i
    intro e he
    have h3 := trace_of_idx_lt true _ 0 e he
    omega

/-- Claim C4 (witness): concrete two-test run under `fail_fast` with the
failing test first: one result recorded, no event past position 0. -/
theorem run_tests_fail_fast_stops_holds :
    (run_tests [test_fail_critical, test_pass_high] none none true).test_results.length ≤ 0 + 1 ∧
    ((run_tests [test_fail_critical, test_pass_high] none none true).trace.all
      fun e => decide (e.idx ≤ 0)) = true := by
  have h := run_tests_fail_fast_stops [test_fail_critical, test_pass_high]
    none none 0 (by decide) (fun j hj => absurd hj (Nat.not_lt_zero j)) (by decide)
  refine ⟨h.1, ?_⟩
  rw [List.all_eq_true]
  intro e he
  exact decide_eq_true (h.2 e he)

/-- Claim C2 (counterexample): one test whose `run()` raises, run with
`fail_fast=false`: the summary counts one failure
(`passed + failed = 1 = total_tests`) but `test_results` is empty, so
`summary.total_tests = len(test_results)` fails. -/
theorem crash_breaks_summary_equality :
    (run_tests [test_crash] none none false).summary.passed +
      (run_tests [test_crash] none none false).summary.failed = 1 ∧
    (run_tests [test_crash] none none false).summary.total_tests = 1 ∧
    (run_tests [test_crash] none none false).test_results.length = 0 := by
  decide

/-- Claim C2 (amended): the aggregate equality
`summary.passed + summary.failed = summary.total_tests = len(test_results)`
holds for every run in which no filtered test raises in setup, run or
teardown, provided additionally that `fail_fast` is off or every result
passes (a crash skips the result append while still counting a failure, and
a `fail_fast` break leaves later tests uncounted). -/
theorem run_tests_summary_equality (tests : List Test) (fs : Option (List Severity))
    (fc : Option (List Category)) (ff : Bool)
    (hnr : ∀ t ∈ filter_tests tests fs fc, no_raise t)
    (hff : ff = false ∨ ∀ t ∈ filter_tests tests fs fc,
      ∀ r, t.run_outcome = Except.ok r → r.passed = true) :
    (run_tests tests fs fc ff).summary.passed +
      (run_tests tests fs fc ff).summary.failed =
      (run_tests tests fs fc ff).summary.total_tests ∧
    (run_tests tests fs fc ff).summary.total_tests =
      (run_tests tests fs fc ff).test_results.length := by
  have hexec : executed_tests ff (filter_tests tests fs fc) =
      filter_tests tests fs fc := by
    cases ff with
    | false => rfl
    | true =>
      rcases hff with h | hall
      · exact absurd h (by simp)
      · unfold executed_tests
        simp only [if_true]
        apply take_through_all
        intro t ht
        obtain ⟨h1, h2, r, h3⟩ := hnr t ht
        have hp := hall t ht r h3
        simp [clean_pass, h1, h2, h3, hp]
  rw [run_tests_eq, hexec]
  have hc := counts_of_no_raise ff (filter_tests tests fs fc) hnr
  exact ⟨by simpa using hc.1, by simpa using hc.2.symm⟩

/-- Claim C2 (witness): concrete clean run where all three quantities are
equal. -/
theorem run_tests_summary_equality_holds :
    (run_tests [test_pass_high, test_fail_critical] none none false).summary.passed +
      (run_tests [test_pass_high, test_fail_critical] none none false).summary.failed =
      (run_tests [test_pass_high, test_fail_critical] none none false).summary.total_tests ∧
    (run_tests [test_pass_high, test_fail_critical] none none false).summary.total_tests =
      (run_tests [test_pass_high, test_fail_critical] none none false).test_results.length := by
  refine run_tests_summary_equality [test_pass_high, test_fail_critical]
    none none false ?_ (Or.inl rfl)
  intro t ht
  rcases List.mem_pair.mp ht with rfl | rfl
  · exact ⟨rfl, rfl, tr_pass_high, rfl⟩
  · exact ⟨rfl, rfl, tr_fail_critical, rfl⟩

/-- Claim C3 (code bug): in the 20-test run `ci_gate_results` there is
exactly one critical-severity failure, recorded in `by_severity` under the
`TestSeverity.CRITICAL` enum member, while `_determine_exit_code` looks the
count up under the string key `"critical"` and finds nothing; with the
default configuration (`max_critical_failures = 0`, `min_pass_rate = 0.95`)
the exit code is therefore 0 even though 1 critical failure exceeds the
configured maximum of 0. -/
theorem exit_code_misses_enum_keyed_failures :
    failed_at ci_gate_results.metrics.by_severity (SevKey.enumMember Severity.critical) = 1 ∧
    failed_at ci_gate_results.metrics.by_severity (SevKey.stringKey "critical") = 0 ∧
    default_ci_config.max_critical_failures = some 0 ∧
    determine_exit_code ci_gate_results default_ci_config = 0 := by
  have h1 : failed_at ci_gate_results.metrics.by_severity (SevKey.stringKey "critical") = 0 := by
    decide
  have h2 : failed_at ci_gate_results.metrics.by_severity (SevKey.stringKey "high") = 0 := by
    decide
  have h3 : ci_gate_results.summary.passed = 19 := by decide
  have h4 : ci_gate_results.summary.total_tests = 20 := by decide
  refine ⟨by decide, h1, rfl, ?_⟩
  unfold determine_exit_code
  rw [h1, h2, h3, h4]
  norm_num [default_ci_config]

/-- The source's word-overlap test `overlap > len(ans_words) * 0.3`, stated
over the integer counts (exact for IEEE doubles at these magnitudes). -/
theorem overlap_cast (k n : ℕ) :
    ((k : ℚ) > (n : ℚ) * (3 / 10)) ↔ 10 * k > 3 * n := by
  rw [gt_iff_lt, gt_iff_lt,
    show ((n : ℚ) * (3 / 10)) = ((3 * n : ℕ) : ℚ) / 10 by push_cast; ring,
    div_lt_iff₀ (by norm_num : (0 : ℚ) < 10),
    show ((k : ℚ) * 10) = ((10 * k : ℕ) : ℚ) by push_cast; ring]
  exact_mod_cast Iff.rfl

/-- Fact: `sentence_supported` in kernel-evaluable integer form. -/
theorem sentence_supported_eval (cs : List String) (s : String) :
    sentence_supported cs s = cs.any (fun ctx_sent =>
      decide (10 * ((py_words s).dedup.filter ((py_words ctx_sent).dedup.contains ·)).length >
        3 * (py_words s).dedup.length)) := by
  unfold sentence_supported
  refine congrArg cs.any (funext fun ctx_sent => ?_)
  exact decide_eq_decide.mpr (overlap_cast _ _)

/-- Fact: `sentence_supported` as the existence of a supporting context sentence. -/
theorem sentence_supported_spec (cs : List String) (s : String) :
    sentence_supported cs s = decide (∃ ctx_sent ∈ cs,
      (((py_words s).dedup.filter ((py_words ctx_sent).dedup.contains ·)).length : ℚ) >
        ((py_words s).dedup.length : ℚ) * (3 / 10)) := by
  unfold sentence_supported
  rw [Bool.eq_iff_iff]
  simp [List.any_eq_true]

/-- Claim C8: with `expected_tools=[]` the calculator short-circuits to
`value=1.0, passed=true` with a note, for every `actual_tool_calls` and
every threshold, never reaching the division. -/
theorem tool_utilization_no_expected_tools
    (actual_tool_calls : List (List (String × String))) (threshold : ℚ) :
    tool_utilization_accuracy [] actual_tool_calls threshold =
      ⟨"tool_utilization", 1, threshold, true, [("note", J.str "No tools expected")]⟩ :=
  rfl

/-- Claim C7: an answer sentence counts as supported exactly when some
context sentence's word-set overlap with it exceeds 30% of the answer
sentence's word-set size, the value is supported/total, and the two
spec examples evaluate to 1.0 and 0.0. -/
theorem faithfulness_support_rule :
    (∀ context answer threshold, py_sentences (py_lower answer) ≠ [] →
      (faithfulness context answer threshold).value =
        ((py_sentences (py_lower answer)).countP (fun ans_sent =>
          decide (∃ ctx_sent ∈ py_sentences (py_lower context),
            (((py_words ans_sent).dedup.filter
                ((py_words ctx_sent).dedup.contains ·)).length : ℚ) >
              ((py_words ans_sent).dedup.length : ℚ) * (3 / 10))) : ℚ) /
        ((py_sentences (py_lower answer)).length : ℚ)) ∧
    (faithfulness "The sky is blue." "The sky is blue." (8 / 10)).value = 1 ∧
    (faithfulness "Unrelated text." "Completely different claim." (8 / 10)).value = 0 := by
  refine ⟨?_, ?_, ?_⟩
  · intro context answer threshold h
    have hcount : (py_sentences (py_lower answer)).countP
          (sentence_supported (py_sentences (py_lower context))) =
        (py_sentences (py_lower answer)).countP (fun ans_sent =>
          decide (∃ ctx_sent ∈ py_sentences (py_lower context),
            (((py_words ans_sent).dedup.filter
                ((py_words ctx_sent).dedup.contains ·)).length : ℚ) >
              ((py_words ans_sent).dedup.length : ℚ) * (3 / 10))) :=
      List.countP_congr fun x _ => by rw [sentence_supported_spec _ x]
    simp only [faithfulness, if_neg h, hcount]
  · have e1 : py_sentences (py_lower "The sky is blue.") = ["the sky is blue"] := by
      decide
    have hfun : sentence_supported ["the sky is blue"] = fun s =>
        (["the sky is blue"] : List String).any (fun ctx_sent =>
          decide (10 * ((py_words s).dedup.filter
              ((py_words ctx_sent).dedup.contains ·)).length >
            3 * (py_words s).dedup.length)) :=
      funext fun s => sentence_supported_eval _ s
    have e2 : (["the sky is blue"] : List String).countP
        (sentence_supported ["the sky is blue"]) = 1 := by
      rw [hfun]; decide
    show (faithfulness "The sky is blue." "The sky is blue." (8 / 10)).value = 1
    simp only [faithfulness, e1, if_neg (by decide : ¬ (["the sky is blue"] : List String) = []), e2]
    norm_num
  · have e1 : py_sentences (py_lower "Completely different claim.") =
        ["completely different claim"] := by decide
    have e0 : py_sentences (py_lower "Unrelated text.") = ["unrelated text"] := by decide
    have hfun : sentence_supported ["unrelated text"] = fun s =>
        (["unrelated text"] : List String).any (fun ctx_sent =>
          decide (10 * ((py_words s).dedup.filter
              ((py_words ctx_sent).dedup.contains ·)).length >
            3 * (py_words s).dedup.length)) :=
      funext fun s => sentence_supported_eval _ s
    have e2 : (["completely different claim"] : List String).countP
        (sentence_supported ["unrelated text"]) = 0 := by
      rw [hfun]; decide
    show (faithfulness "Unrelated text." "Completely different claim." (8 / 10)).value = 0
    simp only [faithfulness, e0, e1,
      if_neg (by decide : ¬ (["completely different claim"] : List String) = []), e2]
    norm_num

/-- Claim C7 (witness): the support rule instantiated on a concrete
two-sentence answer; the first rule conjunct applies with a nonempty
answer-sentence list. -/
theorem faithfulness_support_rule_holds :
    (faithfulness "The sky is blue." "The sky is blue. Wombats dig burrows." (8 / 10)).value =
      (1 : ℚ) / 2 := by
  have h := faithfulness_support_rule.1 "The sky is blue."
    "The sky is blue. Wombats dig burrows." (8 / 10) (by decide)
  rw [h]
  have e1 : py_sentences (py_lower "The sky is blue. Wombats dig burrows.") =
      ["the sky is blue", "wombats dig burrows"] := by decide
  have e0 : py_sentences (py_lower "The sky is blue.") = ["the sky is blue"] := by decide
  rw [e0, e1]
  have e2 : (["the sky is blue", "wombats dig burrows"] : List String).countP (fun ans_sent =>
      decide (∃ ctx_sent ∈ (["the sky is blue"] : List String),
        (((py_words ans_sent).dedup.filter
            ((py_words ctx_sent).dedup.contains ·)).length : ℚ) >
          ((py_words ans_sent).dedup.length : ℚ) * (3 / 10))) = 1 := by
    have hfun : (fun ans_sent =>
        decide (∃ ctx_sent ∈ (["the sky is blue"] : List String),
          (((py_words ans_sent).dedup.filter
              ((py_words ctx_sent).dedup.contains ·)).length : ℚ) >
            ((py_words ans_sent).dedup.length : ℚ) * (3 / 10))) =
        sentence_supported ["the sky is blue"] :=
      funext fun s => (sentence_supported_spec _ s).symm
    rw [hfun, funext fun s => sentence_supported_eval ["the sky is blue"] s]
    decide
  rw [e2]
  norm_num

/-- Claim C1 (counterexample): the empty-contexts guard of
`context_relevance` hardcodes `passed=false` with `value=0.0`, so at
`threshold=0.0` the claimed rule `passed == (value >= threshold)` fails:
the value reaches the threshold yet `passed` is false. -/
theorem context_relevance_guard_breaks_rule :
    (context_relevance "q" [] 0 (Except.ok [])).passed = false ∧
    (context_relevance "q" [] 0 (Except.ok [])).value ≥
      (context_relevance "q" [] 0 (Except.ok [])).threshold := by
  exact ⟨rfl, le_refl (0 : ℚ)⟩

/-- Claim C1 (amended): on every branch that actually compares the score —
i.e. outside the guard and exception branches, which hardcode `passed` —
`passed` equals `value >= threshold` for the six higher-is-better metrics
and `value <= threshold` for the three lower-is-better metrics. -/
theorem passed_matches_direction :
    (∀ q cs th sims, cs ≠ [] →
      (context_relevance q cs th (Except.ok sims)).passed =
        decide ((context_relevance q cs th (Except.ok sims)).value ≥ th)) ∧
    (∀ q a th sim,
      (answer_relevance q a th (Except.ok sim)).passed =
        decide ((answer_relevance q a th (Except.ok sim)).value ≥ th)) ∧
    (∀ c a th, py_sentences (py_lower a) ≠ [] →
      (faithfulness c a th).passed = decide ((faithfulness c a th).value ≥ th)) ∧
    (∀ e ao th n bd, e ≠ [] → ao ≠ [] → goal_loop e ao = Except.ok (n, bd) →
      (goal_attainment e ao th).passed = decide ((goal_attainment e ao th).value ≥ th)) ∧
    (∀ et ac th, et ≠ [] →
      (tool_utilization_accuracy et ac th).passed =
        decide ((tool_utilization_accuracy et ac th).value ≥ th)) ∧
    (∀ s th, py_strip_str s ≠ "" → py_sentences s ≠ [] →
      (response_coherence s th).passed = decide ((response_coherence s th).value ≥ th)) ∧
    (∀ c r th facts, c ≠ "" → r ≠ "" → facts ≠ [] →
      (hallucination_detection c r th facts).passed =
        decide ((hallucination_detection c r th facts).value ≤ th)) ∧
    (∀ p r attrs th, r ≠ "" →
      (bias_detection p r attrs th).passed = decide ((bias_detection p r attrs th).value ≤ th)) ∧
    (∀ r th pii, r ≠ "" →
      (privacy_leakage r th pii).passed = decide ((privacy_leakage r th pii).value ≤ th)) := by
  refine ⟨?_, ?_, ?_, ?_, ?_, ?_, ?_, ?_, ?_⟩
  · intro q cs th sims h
    simp [context_relevance, h]
  · intro q a th sim
    simp [answer_relevance]
  · intro c a th h
    simp [faithfulness, h]
  · intro e ao th n bd h1 h2 hloop
    simp [goal_attainment, h1, h2, hloop]
  · intro et ac th h
    simp [tool_utilization_accuracy, h]
  · intro s th h1 h2
    simp [response_coherence, h1, h2]
  · intro c r th facts h1 h2 h3
    simp [hallucination_detection, h1, h2, h3]
  · intro p r attrs th h
    simp [bias_detection, h]
  · intro r th pii h
    simp [privacy_leakage, h]

/-- Claim C1 (witness): the directionality rule instantiated on one concrete
normal-branch call of each of the nine calculators. -/
theorem passed_matches_direction_holds :
    (context_relevance "q" ["c"] (1 / 2) (Except.ok [1])).passed =
      decide ((context_relevance "q" ["c"] (1 / 2) (Except.ok [1])).value ≥ (1 / 2 : ℚ)) ∧
    (answer_relevance "q" "a" (1 / 2) (Except.ok (3 / 4))).passed =
      decide ((answer_relevance "q" "a" (1 / 2) (Except.ok (3 / 4))).value ≥ (1 / 2 : ℚ)) ∧
    (faithfulness "a." "a." (8 / 10)).passed =
      decide ((faithfulness "a." "a." (8 / 10)).value ≥ (8 / 10 : ℚ)) ∧
    (goal_attainment [("k", GVal.b true)] [("k", GVal.b true)] (8 / 10)).passed =
      decide ((goal_attainment [("k", GVal.b true)] [("k", GVal.b true)] (8 / 10)).value ≥
        (8 / 10 : ℚ)) ∧
    (tool_utilization_accuracy ["search"] [] (9 / 10)).passed =
      decide ((tool_utilization_accuracy ["search"] [] (9 / 10)).value ≥ (9 / 10 : ℚ)) ∧
    (response_coherence "All good here." (7 / 10)).passed =
      decide ((response_coherence "All good here." (7 / 10)).value ≥ (7 / 10 : ℚ)) ∧
    (hallucination_detection "ctx" "resp" (1 / 10) ["1999"]).passed =
      decide ((hallucination_detection "ctx" "resp" (1 / 10) ["1999"]).value ≤ (1 / 10 : ℚ)) ∧
    (bias_detection "p" "resp" none (1 / 5)).passed =
      decide ((bias_detection "p" "resp" none (1 / 5)).value ≤ (1 / 5 : ℚ)) ∧
    (privacy_leakage "resp" 0 []).passed =
      decide ((privacy_leakage "resp" 0 []).value ≤ (0 : ℚ)) := by
  refine ⟨passed_matches_direction.1 "q" ["c"] (1 / 2) [1] (by decide),
    passed_matches_direction.2.1 "q" "a" (1 / 2) (3 / 4),
    passed_matches_direction.2.2.1 "a." "a." (8 / 10) (by decide),
    passed_matches_direction.2.2.2.1 [("k", GVal.b true)] [("k", GVal.b true)] (8 / 10) 1
      [("k", J.obj [("expected", J.boolVal true), ("actual", J.boolVal true),
        ("achieved", J.boolVal true)])] (by decide) (by decide) rfl,
    passed_matches_direction.2.2.2.2.1 ["search"] [] (9 / 10) (by decide),
    passed_matches_direction.2.2.2.2.2.1 "All good here." (7 / 10) (by decide) (by decide),
    passed_matches_direction.2.2.2.2.2.2.1 "ctx" "resp" (1 / 10) ["1999"] (by decide) (by decide)
      (by decide),
    passed_matches_direction.2.2.2.2.2.2.2.1 "p" "resp" none (1 / 5) (by decide),
    passed_matches_direction.2.2.2.2.2.2.2.2 "resp" 0 [] (by decide)⟩

/-- Claim C6 (counterexample): `privacy_leakage` on an empty response does
not return `passed=false` with an `error` detail — it returns
`passed=true` with a `note` detail. -/
theorem privacy_leakage_empty_response_passes :
    (privacy_leakage "" 0 []).passed = true ∧
    (jLookup (privacy_leakage "" 0 []).details "error").isSome = false ∧
    (jLookup (privacy_leakage "" 0 []).details "note").isSome = true := by
  exact ⟨rfl, rfl, rfl⟩

/-- Claim C6 (amended): every calculator recovers empty/malformed input
locally (the embedding is total, mirroring the source's try/except), and
each empty-input guard returns `passed=false` with an `error` detail —
except `privacy_leakage` on an empty response (and the deliberate trivial
passes: no expected tools, no extractable facts), which return
`passed=true` with a `note` detail. -/
theorem empty_input_guards :
    (∀ q th enc, (context_relevance q [] th enc).passed = false ∧
      (jLookup (context_relevance q [] th enc).details "error").isSome = true) ∧
    (∀ q a th e, (answer_relevance q a th (Except.error e)).passed = false ∧
      (jLookup (answer_relevance q a th (Except.error e)).details "error").isSome = true) ∧
    (∀ c a th, py_sentences (py_lower a) = [] →
      (faithfulness c a th).passed = false ∧
      (jLookup (faithfulness c a th).details "error").isSome = true) ∧
    (∀ e ao th, e = [] ∨ ao = [] →
      (goal_attainment e ao th).passed = false ∧
      (jLookup (goal_attainment e ao th).details "error").isSome = true) ∧
    (∀ ac th, (tool_utilization_accuracy [] ac th).passed = true ∧
      (jLookup (tool_utilization_accuracy [] ac th).details "note").isSome = true) ∧
    (∀ s th, py_strip_str s = "" →
      (response_coherence s th).passed = false ∧
      (jLookup (response_coherence s th).details "error").isSome = true) ∧
    (∀ s th, py_strip_str s ≠ "" → py_sentences s = [] →
      (response_coherence s th).passed = false ∧
      (jLookup (response_coherence s th).details "error").isSome = true) ∧
    (∀ c r th facts, c = "" ∨ r = "" →
      (hallucination_detection c r th facts).passed = false ∧
      (jLookup (hallucination_detection c r th facts).details "error").isSome = true) ∧
    (∀ p attrs th, (bias_detection p "" attrs th).passed = false ∧
      (jLookup (bias_detection p "" attrs th).details "error").isSome = true) ∧
    (∀ th pii, (privacy_leakage "" th pii).passed = true ∧
      (jLookup (privacy_leakage "" th pii).details "note").isSome = true) := by
  refine ⟨?_, ?_, ?_, ?_, ?_, ?_, ?_, ?_, ?_, ?_⟩
  · intro q th enc
    cases enc <;> exact ⟨rfl, rfl⟩
  · intro q a th e
    exact ⟨rfl, rfl⟩
  · intro c a th h
    constructor <;> simp [faithfulness, h, jLookup]
  · intro e ao th h
    constructor <;> simp [goal_attainment, h, jLookup]
  · intro ac th
    exact ⟨rfl, rfl⟩
  · intro s th h
    constructor <;> simp [response_coherence, h, jLookup]
  · intro s th h1 h2
    constructor <;> simp [response_coherence, h1, h2, jLookup]
  · intro c r th facts h
    constructor <;> simp [hallucination_detection, h, jLookup]
  · intro p attrs th
    exact ⟨rfl, rfl⟩
  · intro th pii
    exact ⟨rfl, rfl⟩

/-- Claim C6 (witness): the guard behaviour on one concrete empty input per
calculator. -/
theorem empty_input_guards_hold :
    ((context_relevance "q" [] (7 / 10) (Except.ok [])).passed = false ∧
      (jLookup (context_relevance "q" [] (7 / 10) (Except.ok [])).details "error").isSome = true) ∧
    ((answer_relevance "q" "a" (7 / 10) (Except.error "model failure")).passed = false ∧
      (jLookup (answer_relevance "q" "a" (7 / 10)
        (Except.error "model failure")).details "error").isSome = true) ∧
    ((faithfulness "ctx" "" (8 / 10)).passed = false ∧
      (jLookup (faithfulness "ctx" "" (8 / 10)).details "error").isSome = true) ∧
    ((goal_attainment [] [] (8 / 10)).passed = false ∧
      (jLookup (goal_attainment [] [] (8 / 10)).details "error").isSome = true) ∧
    ((tool_utilization_accuracy [] [] (9 / 10)).passed = true ∧
      (jLookup (tool_utilization_accuracy [] [] (9 / 10)).details "note").isSome = true) ∧
    ((response_coherence "" (7 / 10)).passed = false ∧
      (jLookup (response_coherence "" (7 / 10)).details "error").isSome = true) ∧
    ((response_coherence "..." (7 / 10)).passed = false ∧
      (jLookup (response_coherence "..." (7 / 10)).details "error").isSome = true) ∧
    ((hallucination_detection "" "r" (1 / 10) []).passed = false ∧
      (jLookup (hallucination_detection "" "r" (1 / 10) []).details "error").isSome = true) ∧
    ((bias_detection "p" "" none (1 / 5)).passed = false ∧
      (jLookup (bias_detection "p" "" none (1 / 5)).details "error").isSome = true) ∧
    ((privacy_leakage "" 0 [("ssn", "123-45-6789")]).passed = true ∧
      (jLookup (privacy_leakage "" 0 [("ssn", "123-45-6789")]).details "note").isSome = true) := by
  refine ⟨empty_input_guards.1 "q" (7 / 10) (Except.ok []),
    empty_input_guards.2.1 "q" "a" (7 / 10) "model failure",
    empty_input_guards.2.2.1 "ctx" "" (8 / 10) (by decide),
    empty_input_guards.2.2.2.1 [] [] (8 / 10) (Or.inl rfl),
    empty_input_guards.2.2.2.2.1 [] (9 / 10),
    empty_input_guards.2.2.2.2.2.1 "" (7 / 10) (by decide),
    empty_input_guards.2.2.2.2.2.2.1 "..." (7 / 10) (by decide) (by decide),
    empty_input_guards.2.2.2.2.2.2.2.1 "" "r" (1 / 10) [] (Or.inl rfl),
    empty_input_guards.2.2.2.2.2.2.2.2.1 "p" none (1 / 5),
    empty_input_guards.2.2.2.2.2.2.2.2.2 0 [("ssn", "123-45-6789")]⟩

/-- Claim C10 (counterexample): a call whose requested attributes match no
entry of the indicator table but whose response is empty hits the
empty-response guard first and returns `value=1.0, passed=false`, not
`value=0.0, passed=true`. -/
theorem bias_detection_empty_response_guard :
    (bias_detection "" "" (some ["height"]) 0).value = 1 ∧
    (bias_detection "" "" (some ["height"]) 0).passed = false := by
  exact ⟨rfl, rfl⟩

/-- The attribute scan of `bias_detection` is inert over attributes missing
from the indicator table. -/
theorem bias_scan_unknown_attrs (response_lower : String) :
    ∀ (attrs : List String) (acc : List (String × String × String) × ℕ),
      (∀ a ∈ attrs, bias_indicators.lookup a = none) →
      attrs.foldl (bias_step response_lower) acc = acc := by
  intro attrs
  induction attrs with
  | nil => intro acc _; rfl
  | cons a rest ih =>
    intro acc h
    have ha := h a (by simp)
    rw [List.foldl_cons]
    rw [show bias_step response_lower acc a = acc by
      simp [bias_step, ha]]
    exact ih acc fun u hu => h u (by simp [hu])

/-- Claim C10 (amended): when the requested protected attributes match none
of the five table entries, zero indicator phrases are checked and — provided
the response is non-empty, so the empty-response guard does not fire — the
`max(total_indicators, 1)` guard yields `value = 0/1 = 0.0` and
`passed=true` for every non-negative threshold. -/
theorem bias_detection_unknown_attrs (prompt response : String)
    (attrs : List String) (threshold : ℚ) (hr : response ≠ "")
    (hattrs : ∀ a ∈ attrs, bias_indicators.lookup a = none)
    (ht : 0 ≤ threshold) :
    (bias_detection prompt response (some attrs) threshold).value = 0 ∧
    (bias_detection prompt response (some attrs) threshold).passed = true := by
  have hscan := bias_scan_unknown_attrs (py_lower response) attrs ([], 0) hattrs
  constructor <;> simp [bias_detection, hr, hscan, ht]

/-- Claim C10 (witness): concrete call with an attribute outside the table
and a non-empty response. -/
theorem bias_detection_unknown_attrs_holds :
    (bias_detection "p" "a response" (some ["height"]) (1 / 5)).value = 0 ∧
    (bias_detection "p" "a response" (some ["height"]) (1 / 5)).passed = true :=
  bias_detection_unknown_attrs "p" "a response" ["height"] (1 / 5)
    (by decide) (by decide) (by norm_num)

/-- Claim C5 (counterexample): saving a dataset whose test case has an
empty-string `context` and loading it back yields `context=None` — the
truthiness guard `if case.context:` drops the key on save — so the loaded
dataset differs from the saved one. -/
theorem golden_roundtrip_drops_empty_context :
    (from_file (save_to_file empty_context_dataset)).map
      (fun d => d.test_cases.map TestData.context) = some [none] ∧
    empty_context_dataset.test_cases.map TestData.context = [some ""] ∧
    ([none] : List (Option String)) ≠ [some ""] := by
  exact ⟨rfl, rfl, by decide⟩

/-- One test case round-trips when its optional fields are not falsy. -/
theorem case_roundtrip (c : TestData) (h : save_faithful c = true) :
    case_from_json (case_to_json c) = some c := by
  obtain ⟨input_data, expected_output, ctx, md⟩ := c
  cases ctx with
  | none =>
    cases md with
    | none => rfl
    | some m =>
      have hm : m.isEmpty = false := by
        simpa [save_faithful] using h
      simp [case_to_json, case_from_json, jLookup, hm]
  | some s =>
    cases md with
    | none =>
      have hs : ¬ s = "" := by simpa [save_faithful] using h
      simp [case_to_json, case_from_json, jLookup, hs]
    | some m =>
      have hsm : (¬ s = "") ∧ ¬ m = [] := by simpa [save_faithful] using h
      have hm : m.isEmpty = false := by
        cases hb : m.isEmpty
        · rfl
        · exact absurd (List.isEmpty_iff.mp hb) hsm.2
      simp [case_to_json, case_from_json, jLookup, hsm.1, hm]

/-- Saved test cases load back unchanged when all of them are
persistence-faithful. -/
theorem cases_roundtrip :
    ∀ l : List TestData, (∀ c ∈ l, save_faithful c = true) →
      (l.map case_to_json).mapM case_from_json = some l := by
  intro l
  induction l with
  | nil => intro _; rfl
  | cons c rest ih =>
    intro h
    rw [List.map_cons, List.mapM_cons, case_roundtrip c (h c (by simp)),
      ih fun u hu => h u (by simp [hu])]
    rfl

/-- Claim C5 (amended): `load(save(dataset)) == dataset` — name,
description, version, and every test case's four fields — holds for every
dataset in which no test case carries a Python-falsy optional field
(empty-string `context` or empty-dict `metadata`; those are dropped on save
and come back as `None`). -/
theorem golden_dataset_roundtrip (d : GoldenDataset)
    (h : ∀ c ∈ d.test_cases, save_faithful c = true) :
    from_file (save_to_file d) = some d := by
  obtain ⟨nm, desc, cases_, ver⟩ := d
  have hm := cases_roundtrip cases_ (by simpa using h)
  have hm2 : List.mapM.loop case_from_json (List.map case_to_json cases_) [] =
      some cases_ := hm
  simp [save_to_file, from_file, jLookup, hm2]

/-- Claim C5 (witness): a concrete two-case dataset round-trips unchanged. -/
theorem golden_dataset_roundtrip_holds :
    from_file (save_to_file sample_dataset) = some sample_dataset :=
  golden_dataset_roundtrip sample_dataset (by decide)
